import Mathlib

deriving instance DecidableEq for Except

/-!
Verification of the fastapi-fsp query-translation core (filtering, sorting,
pagination) against its natural-language specification.

The Python sources are shallowly embedded: Python strings are Lean `String`s
manipulated through explicit `List Char` helpers mirroring the CPython string
methods used by the code (`str.strip`, `str.lower`, `str.split(",")`,
`sorted`); exceptions are modelled with `Except`; SQLAlchemy predicate
construction is modelled as an explicit syntax tree, since the engines only
build predicate values and never evaluate them.
-/

namespace FastapiFsp

/-! ## Python string primitives

Models of the CPython `str` methods used by the source. Python's `str.strip`
removes the six ASCII whitespace characters from both ends; `str.lower`
lower-cases (here: ASCII letters, the only case the embedded inputs exercise);
`"x".split(",")` keeps empty pieces, and `"".split(",") == [""]`. -/

def pyIsSpace (c : Char) : Bool :=
  c = ' ' || c = '\t' || c = '\n' || c = '\r' || c = '\x0b' || c = '\x0c'

def listTrim (cs : List Char) : List Char :=
  ((cs.dropWhile pyIsSpace).reverse.dropWhile pyIsSpace).reverse

/-- Model of Python `str.strip()`. -/
def pyStrip (s : String) : String := ⟨listTrim s.data⟩

def pyCharLower (c : Char) : Char :=
  if 65 ≤ c.toNat ∧ c.toNat ≤ 90 then Char.ofNat (c.toNat + 32) else c

/-- Model of Python `str.lower()` (ASCII case folding). -/
def pyLower (s : String) : String := ⟨s.data.map pyCharLower⟩

def splitCommaChars : List Char → List (List Char)
  | [] => [[]]
  | c :: rest =>
    if c = ',' then [] :: splitCommaChars rest
    else
      match splitCommaChars rest with
      | [] => [[c]]
      | g :: gs => (c :: g) :: gs

/-- Model of Python `raw.split(",")`: empty pieces are preserved and the empty
string splits to `[""]`. -/
def pySplitComma (s : String) : List String := (splitCommaChars s.data).map (⟨·⟩)

def charListLe : List Char → List Char → Bool
  | [], _ => true
  | _ :: _, [] => false
  | a :: as, b :: bs =>
    if a.toNat < b.toNat then true
    else if b.toNat < a.toNat then false
    else charListLe as bs

def pyStrLe (a b : String) : Bool := charListLe a.data b.data

def insertAsc (s : String) : List String → List String
  | [] => [s]
  | t :: ts => if pyStrLe s t then s :: t :: ts else t :: insertAsc s ts

/-- Model of Python `sorted` on a list of strings (ascending code-point
lexicographic order, as CPython compares `str`). -/
def pySorted (xs : List String) : List String := xs.foldr insertAsc []

/-! ## Python numeric conversions

`int(raw)` on a string accepts optional surrounding whitespace, an optional
sign and a nonempty digit run, else raises `ValueError`. `float(raw)`
additionally accepts `inf`/`infinity`/`nan` (case-insensitively, with optional
sign) and decimal/exponent forms; `int(f)` on a float truncates toward zero,
raises `OverflowError` on an infinity and `ValueError` on a NaN. -/

inductive PyExc where
  | valueError
  | overflowError
  | typeError
  deriving DecidableEq, Repr

def readSign : List Char → Int × List Char
  | '-' :: rest => (-1, rest)
  | '+' :: rest => (1, rest)
  | l => (1, l)

def digitsToNat (ds : List Char) : Nat :=
  ds.foldl (fun acc c => acc * 10 + (c.toNat - 48)) 0

/-- Model of Python `int(raw)` for `raw : str`: `none` means `ValueError`. -/
def pyIntOfString (s : String) : Option Int :=
  let t := listTrim s.data
  let (sign, ds) := readSign t
  if ds ≠ [] && ds.all Char.isDigit then some (sign * (digitsToNat ds : Nat))
  else none

/-- A Python float as produced by `float(raw)`: a finite decimal value
`mantissa * 10 ^ -frac`, an infinity, or a NaN (rounding of long decimal
expansions is irrelevant to the embedded claims). -/
inductive PyFloat where
  | finite (mantissa : Int) (frac : Nat)
  | inf
  | negInf
  | nan
  deriving DecidableEq, Repr

def readDigits (l : List Char) : List Char × List Char :=
  (l.takeWhile Char.isDigit, l.dropWhile Char.isDigit)

/-- Parse the decimal part of a float literal: digits, optional point and
fraction digits (at least one digit overall), no exponent handling beyond a
plain integer exponent. Returns `(mantissa digits, fraction length, rest)`. -/
def readDecimal (l : List Char) : Option (Nat × Nat × List Char) :=
  let (intPart, r1) := readDigits l
  match r1 with
  | '.' :: r2 =>
    let (fracPart, r3) := readDigits r2
    if intPart = [] && fracPart = [] then none
    else some (digitsToNat (intPart ++ fracPart), fracPart.length, r3)
  | _ =>
    if intPart = [] then none
    else some (digitsToNat intPart, 0, r1)

def applyExponent (mantissa : Int) (frac : Nat) (rest : List Char) :
    Option PyFloat :=
  match rest with
  | [] => some (.finite mantissa frac)
  | 'e' :: r | 'E' :: r =>
    let (esign, r1) := readSign r
    let (eds, r2) := readDigits r1
    if eds = [] || r2 ≠ [] then none
    else
      let e := digitsToNat eds
      if esign = 1 then some (.finite (mantissa * (10 : Int) ^ e) frac)
      else some (.finite mantissa (frac + e))
  | _ => none

/-- Model of Python `float(raw)` for `raw : str`: `none` means `ValueError`. -/
def pyFloatOfString (s : String) : Option PyFloat :=
  let t := listTrim s.data
  let (sign, body) := readSign t
  let low := (body.map pyCharLower)
  if low = "inf".data || low = "infinity".data then
    some (if sign = 1 then .inf else .negInf)
  else if low = "nan".data then some .nan
  else
    match readDecimal body with
    | none => none
    | some (m, frac, rest) => applyExponent (sign * (m : Int)) frac rest

/-- Model of Python `int(f)` for `f : float`: truncation toward zero; an
infinity raises `OverflowError`, a NaN raises `ValueError`. -/
def pyTruncFloat : PyFloat → Except PyExc Int
  | .finite m frac => .ok (Int.tdiv m ((10 : Int) ^ frac))
  | .inf => .error .overflowError
  | .negInf => .error .overflowError
  | .nan => .error .valueError

/-! ## Data model (`models.py`) -/

inductive FilterOperator where
  | eq | ne | gt | gte | lt | lte
  | like | notLike | ilike | notIlike
  | inOp | notIn
  | between
  | isNull | isNotNull
  | startsWith | endsWith | containsOp
  deriving DecidableEq, Repr

inductive SortingOrder where
  | asc | desc
  deriving DecidableEq, Repr

structure Filter where
  field : String
  operator : FilterOperator
  value : String
  deriving DecidableEq, Repr

structure OrFilterGroup where
  filters : List Filter
  deriving DecidableEq, Repr

structure PaginationQuery where
  page : Nat
  per_page : Nat
  deriving DecidableEq, Repr

structure SortingQuery where
  sort_by : String
  order : SortingOrder
  deriving DecidableEq, Repr

/-! ## Columns and coercion (`filters.py`) -/

/-- The Python scalar type reported by a column's `type.python_type`. -/
inductive PyType where
  | pyBool | pyInt | pyStr | pyDatetime | pyFloat | pyOther
  deriving DecidableEq, Repr

/-- A parsed datetime value; the embedded engines only carry it around. -/
structure PyDatetime where
  iso : String
  deriving DecidableEq, Repr

inductive PyValue where
  | str (s : String)
  | int (n : Int)
  | bool (b : Bool)
  | datetime (d : PyDatetime)
  | float (f : PyFloat)
  deriving DecidableEq, Repr

/-- A SQLAlchemy column element as the strategies see it: its name, the
introspected Python type (`none` when `python_type` is absent or raises), and
whether `hasattr(col, "ilike")` holds for the backend. -/
structure Column where
  name : String
  pytype : Option PyType
  supportsIlike : Bool
  deriving DecidableEq, Repr

/-- Model of `datetime.fromisoformat` (external library): recognizes a
`YYYY-MM-DD`-prefixed literal. Only success/failure reaches the claims. -/
def pyDatetimeFromIso (s : String) : Option PyDatetime :=
  match s.data with
  | y1 :: y2 :: y3 :: y4 :: '-' :: m1 :: m2 :: '-' :: d1 :: d2 :: _ =>
    if [y1, y2, y3, y4, m1, m2, d1, d2].all Char.isDigit then some ⟨s⟩ else none
  | _ => none

/-- Model of `dateutil.parser.parse` (external library): permissive, succeeds
whenever the string contains a digit. Only success/failure reaches the
claims. -/
def pyDateutilParse (s : String) : Option PyDatetime :=
  if s.data.any Char.isDigit then some ⟨s⟩ else none

def truthyStrings : List String := ["true", "1", "t", "yes", "y"]

def falsyStrings : List String := ["false", "0", "f", "no", "n"]

/-- Embedding of `filters._coerce_value(column, raw, pytype)`. The effective
target type is the `pytype` argument if supplied, else the column's own
introspection result (re-introspection inside the function yields the same
`Option PyType`, any exception included). A `.error` result models an
uncaught Python exception escaping the function. -/
def coerce_value (column : Column) (raw : String) (pytypeArg : Option PyType) :
    Except PyExc PyValue :=
  let pytype := pytypeArg.orElse fun _ => column.pytype
  match pytype with
  | none => .ok (.str raw)
  | some .pyStr => .ok (.str raw)
  | some .pyBool =>
    let val := pyLower (pyStrip raw)
    if truthyStrings.contains val then .ok (.bool true)
    else if falsyStrings.contains val then .ok (.bool false)
    else .ok (.bool (raw ≠ ""))
  | some .pyInt =>
    match pyIntOfString raw with
    | some n => .ok (.int n)
    | none =>
      match pyFloatOfString raw with
      | none => .ok (.str raw)
      | some f =>
        match pyTruncFloat f with
        | .ok n => .ok (.int n)
        | .error .valueError => .ok (.str raw)
        | .error e => .error e
  | some .pyDatetime =>
    match pyDatetimeFromIso raw with
    | some d => .ok (.datetime d)
    | none =>
      match pyDateutilParse raw with
      | some d => .ok (.datetime d)
      | none => .ok (.str raw)
  | some .pyFloat =>
    match pyFloatOfString raw with
    | some f => .ok (.float f)
    | none => .ok (.str raw)
  | some .pyOther => .ok (.str raw)

/-- Embedding of `filters._split_values(raw)`. -/
def split_values (raw : String) : List String :=
  (pySplitComma raw).map pyStrip

/-! ## Predicate construction (`filters.py` strategy functions)

The strategies only build SQLAlchemy clause values, so the embedding records
the constructed clauses as a syntax tree. `castText` models
`cast(col, String)`/`col.cast(String)`; no strategy in `filters.py` emits it,
but it is needed to state what the specification demands of non-text
columns. -/

inductive SqlExpr where
  | colRef (name : String)
  | lowerFn (e : SqlExpr)
  | castText (e : SqlExpr)
  deriving DecidableEq, Repr

inductive CmpOp where
  | eq | ne | gt | gte | lt | lte
  deriving DecidableEq, Repr

inductive SqlPred where
  | cmp (op : CmpOp) (e : SqlExpr) (v : PyValue)
  | likeP (e : SqlExpr) (pattern : String)
  | ilikeP (e : SqlExpr) (pattern : String)
  | notP (p : SqlPred)
  | inListP (e : SqlExpr) (vs : List PyValue)
  | betweenP (e : SqlExpr) (lo hi : PyValue)
  | isNullP (e : SqlExpr)
  | isNotNullP (e : SqlExpr)
  deriving DecidableEq, Repr

/-- Does the expression contain a cast-to-text node anywhere? -/
def SqlExpr.hasCastText : SqlExpr → Bool
  | .colRef _ => false
  | .lowerFn e => e.hasCastText
  | .castText _ => true

/-- Does the predicate contain a cast-to-text node anywhere? -/
def SqlPred.hasCastText : SqlPred → Bool
  | .cmp _ e _ => e.hasCastText
  | .likeP e _ => e.hasCastText
  | .ilikeP e _ => e.hasCastText
  | .notP p => p.hasCastText
  | .inListP e _ => e.hasCastText
  | .betweenP e _ _ => e.hasCastText
  | .isNullP e => e.hasCastText
  | .isNotNullP e => e.hasCastText

/-- Embedding of `filters._ilike_supported(col)`, i.e.
`hasattr(col, "ilike")`. -/
def ilike_supported (column : Column) : Bool := column.supportsIlike

/-- A strategy either raises (uncaught coercion exception) or returns an
optional predicate, mirroring `Optional[Any]` results. -/
abbrev StrategyResult := Except PyExc (Option SqlPred)

def strategy_cmp (op : CmpOp) (column : Column) (raw : String)
    (pytype : Option PyType) : StrategyResult :=
  match coerce_value column raw pytype with
  | .error e => .error e
  | .ok v => .ok (some (.cmp op (.colRef column.name) v))

def strategy_eq (column : Column) (raw : String) (pytype : Option PyType) :
    StrategyResult := strategy_cmp .eq column raw pytype

def strategy_ne (column : Column) (raw : String) (pytype : Option PyType) :
    StrategyResult := strategy_cmp .ne column raw pytype

def strategy_gt (column : Column) (raw : String) (pytype : Option PyType) :
    StrategyResult := strategy_cmp .gt column raw pytype

def strategy_gte (column : Column) (raw : String) (pytype : Option PyType) :
    StrategyResult := strategy_cmp .gte column raw pytype

def strategy_lt (column : Column) (raw : String) (pytype : Option PyType) :
    StrategyResult := strategy_cmp .lt column raw pytype

def strategy_lte (column : Column) (raw : String) (pytype : Option PyType) :
    StrategyResult := strategy_cmp .lte column raw pytype

def strategy_like (column : Column) (raw : String) (_pytype : Option PyType) :
    StrategyResult := .ok (some (.likeP (.colRef column.name) raw))

def strategy_not_like (column : Column) (raw : String)
    (_pytype : Option PyType) : StrategyResult :=
  .ok (some (.notP (.likeP (.colRef column.name) raw)))

def strategy_ilike (column : Column) (raw : String) (_pytype : Option PyType) :
    StrategyResult :=
  if ilike_supported column then .ok (some (.ilikeP (.colRef column.name) raw))
  else .ok (some (.likeP (.lowerFn (.colRef column.name)) (pyLower raw)))

def strategy_not_ilike (column : Column) (raw : String)
    (_pytype : Option PyType) : StrategyResult :=
  if ilike_supported column then
    .ok (some (.notP (.ilikeP (.colRef column.name) raw)))
  else .ok (some (.notP (.likeP (.lowerFn (.colRef column.name)) (pyLower raw))))

def strategy_in (column : Column) (raw : String) (pytype : Option PyType) :
    StrategyResult := do
  let vals ← (split_values raw).mapM (fun v => coerce_value column v pytype)
  return some (.inListP (.colRef column.name) vals)

def strategy_not_in (column : Column) (raw : String) (pytype : Option PyType) :
    StrategyResult := do
  let vals ← (split_values raw).mapM (fun v => coerce_value column v pytype)
  return some (.notP (.inListP (.colRef column.name) vals))

def strategy_between (column : Column) (raw : String) (pytype : Option PyType) :
    StrategyResult :=
  if h : (split_values raw).length = 2 then
    match coerce_value column ((split_values raw).get ⟨0, by omega⟩) pytype with
    | .error e => .error e
    | .ok low =>
      match coerce_value column ((split_values raw).get ⟨1, by omega⟩)
          pytype with
      | .error e => .error e
      | .ok high => .ok (some (.betweenP (.colRef column.name) low high))
  else .ok none

def strategy_is_null (column : Column) (_raw : String)
    (_pytype : Option PyType) : StrategyResult :=
  .ok (some (.isNullP (.colRef column.name)))

def strategy_is_not_null (column : Column) (_raw : String)
    (_pytype : Option PyType) : StrategyResult :=
  .ok (some (.isNotNullP (.colRef column.name)))

def strategy_starts_with (column : Column) (raw : String)
    (_pytype : Option PyType) : StrategyResult :=
  let pattern := raw ++ "%"
  if ilike_supported column then
    .ok (some (.ilikeP (.colRef column.name) pattern))
  else .ok (some (.likeP (.lowerFn (.colRef column.name)) (pyLower pattern)))

def strategy_ends_with (column : Column) (raw : String)
    (_pytype : Option PyType) : StrategyResult :=
  let pattern := "%" ++ raw
  if ilike_supported column then
    .ok (some (.ilikeP (.colRef column.name) pattern))
  else .ok (some (.likeP (.lowerFn (.colRef column.name)) (pyLower pattern)))

def strategy_contains (column : Column) (raw : String)
    (_pytype : Option PyType) : StrategyResult :=
  let pattern := "%" ++ raw ++ "%"
  if ilike_supported column then
    .ok (some (.ilikeP (.colRef column.name) pattern))
  else .ok (some (.likeP (.lowerFn (.colRef column.name)) (pyLower pattern)))

/-- Embedding of the `FILTER_STRATEGIES` registry (default contents): every
operator tag maps to its strategy. -/
def FILTER_STRATEGIES (op : FilterOperator) :
    Column → String → Option PyType → StrategyResult :=
  match op with
  | .eq => strategy_eq
  | .ne => strategy_ne
  | .gt => strategy_gt
  | .gte => strategy_gte
  | .lt => strategy_lt
  | .lte => strategy_lte
  | .like => strategy_like
  | .notLike => strategy_not_like
  | .ilike => strategy_ilike
  | .notIlike => strategy_not_ilike
  | .inOp => strategy_in
  | .notIn => strategy_not_in
  | .between => strategy_between
  | .isNull => strategy_is_null
  | .isNotNull => strategy_is_not_null
  | .startsWith => strategy_starts_with
  | .endsWith => strategy_ends_with
  | .containsOp => strategy_contains

/-- Embedding of `FilterEngine.build_filter_condition(column, f, pytype)`:
the registry covers every operator, so the `strategy is None` branch of the
source is unreachable with the default registry. -/
def build_filter_condition (column : Column) (f : Filter)
    (pytype : Option PyType) : StrategyResult :=
  FILTER_STRATEGIES f.operator column f.value pytype

/-! ## Query and engine error model

A `Select` value is observed through the WHERE batches and ORDER BY entries
appended to it; each `query.where(*conds)` call appends one batch and each
`query.order_by(col)` appends one ordering entry. The entity-attribute
fallback of `FilterEngine.get_entity_attribute` (computed fields such as
hybrid properties) is modelled by a resolution function passed alongside the
query. -/

structure SqlQuery where
  whereGroups : List (List SqlPred) := []
  orderBys : List (Column × SortingOrder) := []
  deriving DecidableEq, Repr

structure HTTPException where
  status_code : Nat
  detail : String
  deriving DecidableEq, Repr

inductive EngineError where
  | http (e : HTTPException)
  | py (e : PyExc)
  deriving DecidableEq, Repr

/-- `columns_map.get(field)` on the ordered column collection. -/
def columnsGet (columnsMap : List (String × Column)) (field : String) :
    Option Column :=
  (columnsMap.find? (fun kv => kv.1 = field)).map (·.2)

/-- Field resolution: stored column first, then the entity-attribute
fallback. -/
def resolveField (entityAttr : String → Option Column)
    (columnsMap : List (String × Column)) (field : String) : Option Column :=
  (columnsGet columnsMap field).orElse fun _ => entityAttr field

/-- `", ".join(sorted(columns_map.keys()))`. -/
def available_fields (columnsMap : List (String × Column)) : String :=
  String.intercalate ", " (pySorted (columnsMap.map (·.1)))

def unknown_field_detail (field : String)
    (columnsMap : List (String × Column)) : String :=
  "Unknown field \x27" ++ field ++ "\x27. Available fields: " ++
    available_fields columnsMap

def unknown_sort_field_detail (field : String)
    (columnsMap : List (String × Column)) : String :=
  "Unknown sort field \x27" ++ field ++ "\x27. Available fields: " ++
    available_fields columnsMap

/-- The condition-collection loop of `FilterEngine.apply_filters`: resolve
each filter's field (strict mode raises a 400 `HTTPException` at the first
unresolved field, lenient mode skips it), fetch the column type, dispatch to
the registry, and collect the usable conditions in order. -/
def collect_filter_conditions (strict : Bool)
    (entityAttr : String → Option Column)
    (columnsMap : List (String × Column)) :
    List Filter → Except EngineError (List SqlPred)
  | [] => .ok []
  | f :: rest =>
    match resolveField entityAttr columnsMap f.field with
    | none =>
      if strict then
        .error (.http ⟨400, unknown_field_detail f.field columnsMap⟩)
      else collect_filter_conditions strict entityAttr columnsMap rest
    | some column =>
      match build_filter_condition column f column.pytype with
      | .error e => .error (.py e)
      | .ok none => collect_filter_conditions strict entityAttr columnsMap rest
      | .ok (some p) =>
        (collect_filter_conditions strict entityAttr columnsMap rest).map
          (fun conds => p :: conds)

/-- Embedding of `FilterEngine.apply_filters(query, columns_map, filters)`.
An absent (`None`) filter list and an empty one behave identically in the
source (`if not filters`), so both are the empty list here. -/
def apply_filters (strict : Bool) (entityAttr : String → Option Column)
    (query : SqlQuery) (columnsMap : List (String × Column))
    (filters : List Filter) : Except EngineError SqlQuery :=
  if filters.isEmpty then .ok query
  else
    match collect_filter_conditions strict entityAttr columnsMap filters with
    | .error e => .error e
    | .ok conds =>
      .ok (if conds.isEmpty then query
        else { query with whereGroups := query.whereGroups ++ [conds] })

/-- Embedding of `SortEngine.apply_sort(query, columns_map, sorting)`. -/
def apply_sort (strict : Bool) (entityAttr : String → Option Column)
    (query : SqlQuery) (columnsMap : List (String × Column))
    (sorting : Option SortingQuery) : Except EngineError SqlQuery :=
  match sorting with
  | none => .ok query
  | some s =>
    if s.sort_by = "" then .ok query
    else
      match resolveField entityAttr columnsMap s.sort_by with
      | none =>
        if strict then
          .error (.http ⟨400, unknown_sort_field_detail s.sort_by columnsMap⟩)
        else .ok query
      | some column =>
        .ok { query with orderBys := query.orderBys ++ [(column, s.order)] }

/-! ## Dialect detection (`pagination.py`) -/

/-- A probed attribute chain: `.error` models the probe raising. -/
structure BindInfo where
  dialectName : Except PyExc String
  deriving DecidableEq, Repr

structure SyncSessionInfo where
  bind : Except PyExc (Option BindInfo)
  deriving DecidableEq, Repr

/-- What `_detect_postgresql` can observe of a session object:
`getattr(session, "bind", None)` and `getattr(session, "sync_session",
None)`, each of which may be absent (`none`) or raise (`.error`, e.g. a
raising property). -/
structure SessionInfo where
  bind : Except PyExc (Option BindInfo)
  sync_session : Except PyExc (Option SyncSessionInfo)
  deriving DecidableEq, Repr

/-- The `try` body of `_detect_postgresql`: check `session.bind` first, then
fall back to `session.sync_session.bind`; a raised probe propagates to the
surrounding handler. -/
def detect_postgresql_body (s : SessionInfo) : Except PyExc Bool :=
  match s.bind with
  | .error e => .error e
  | .ok (some bind) =>
    match bind.dialectName with
    | .error e => .error e
    | .ok n => .ok (n = "postgresql")
  | .ok none =>
    match s.sync_session with
    | .error e => .error e
    | .ok (some ssv) =>
      match ssv.bind with
      | .error e => .error e
      | .ok (some bind) =>
        match bind.dialectName with
        | .error e => .error e
        | .ok n => .ok (n = "postgresql")
      | .ok none => .ok false
    | .ok none => .ok false

/-- Embedding of `_detect_postgresql(session)`: the whole probe runs inside
`try ... except Exception: pass; return False`. -/
def detect_postgresql (s : SessionInfo) : Bool :=
  match detect_postgresql_body s with
  | .ok b => b
  | .error _ => false

/-! ## Pagination engine (`pagination.py`)

Query execution is modelled on the result sequence of the filtered/sorted
query: the data query's row list. `COUNT(*)` over the subquery is its
length; `COUNT(*) OVER()` labels every row of the subquery with that length
before OFFSET/LIMIT apply. -/

structure PaginationEngine where
  pagination : PaginationQuery
  request_url : String
  use_window_function : Option Bool
  deriving DecidableEq, Repr

/-- Embedding of `PaginationEngine._should_use_window_function(session)`. -/
def should_use_window_function (e : PaginationEngine) (s : SessionInfo) :
    Bool :=
  match e.use_window_function with
  | some b => b
  | none => detect_postgresql s

/-- Embedding of `PaginationEngine.paginate`: OFFSET `(page-1)*per_page`,
LIMIT `per_page` on the query's result sequence. -/
def paginate {α : Type} (e : PaginationEngine) (rows : List α) : List α :=
  (rows.drop ((e.pagination.page - 1) * e.pagination.per_page)).take
    e.pagination.per_page

/-- Embedding of `PaginationEngine._count_total_static`: `COUNT(*)` over the
query as a subquery. -/
def count_total {α : Type} (rows : List α) : Nat := rows.length

/-- Embedding of `PaginationEngine._paginate_with_window`: the window query
pairs every subquery row with `COUNT(*) OVER()` (the full result length),
applies OFFSET/LIMIT, reads the total off the first returned row — or
returns `([], 0)` when no row comes back — and strips the count column. -/
def paginate_with_window {α : Type} (e : PaginationEngine) (rows : List α) :
    List α × Nat :=
  let windowRows :=
    ((rows.map (fun r => (r, rows.length))).drop
      ((e.pagination.page - 1) * e.pagination.per_page)).take
      e.pagination.per_page
  match windowRows with
  | [] => ([], 0)
  | (_, total) :: _ => (windowRows.map Prod.fst, total)

/-- Embedding of `PaginationEngine.paginate_with_count`. -/
def paginate_with_count {α : Type} (e : PaginationEngine) (s : SessionInfo)
    (rows : List α) : List α × Nat :=
  if should_use_window_function e s then paginate_with_window e rows
  else (paginate e rows, count_total rows)

/-! ## Response building (`pagination.py` / `models.py`) -/

structure Pagination where
  total_items : Option Nat
  per_page : Nat
  current_page : Nat
  total_pages : Option Nat
  deriving DecidableEq, Repr

structure Meta where
  pagination : Pagination
  filters : Option (List Filter)
  or_filters : Option (List OrFilterGroup)
  sort : Option SortingQuery
  deriving DecidableEq, Repr

structure Links where
  self : String
  first : String
  next : Option String
  prev : Option String
  last : Option String
  deriving DecidableEq, Repr

structure PaginatedResponse (α : Type) where
  data : List α
  meta : Meta
  links : Links
  deriving DecidableEq, Repr

/-- Model of `request.url.include_query_params(page=..., per_page=...)`:
the request URL with exactly those two query parameters rewritten. -/
def include_query_params (url : String) (page : Nat) (perPage : Nat) :
    String :=
  url ++ "?page=" ++ toString page ++ "&per_page=" ++ toString perPage

/-- `ceil(total_items / per_page)` on exact arithmetic (the claims stay far
below the range where CPython float division could round). -/
def pyCeilDiv (a b : Nat) : Nat := a ⌈/⌉ b

/-- Embedding of `PaginationEngine.build_response(total_items, data_page,
filters, sorting)`. The source constructs `Meta` without an `or_filters`
keyword, so the model's `or_filters` is the pydantic default `None`. -/
def build_response {α : Type} (e : PaginationEngine)
    (total_items : Option Nat) (data_page : List α)
    (filters : Option (List Filter)) (sorting : Option SortingQuery) :
    PaginatedResponse α :=
  let per_page := e.pagination.per_page
  let current_page := e.pagination.page
  let total_pages :=
    match total_items with
    | some n => max 1 (pyCeilDiv n per_page)
    | none => 1
  { data := data_page
    meta :=
      { pagination :=
          { total_items := total_items
            per_page := per_page
            current_page := current_page
            total_pages := some total_pages }
        filters := filters
        or_filters := none
        sort := sorting }
    links :=
      { self := include_query_params e.request_url current_page per_page
        first := include_query_params e.request_url 1 per_page
        next :=
          if current_page < total_pages then
            some (include_query_params e.request_url (current_page + 1)
              per_page)
          else none
        prev :=
          if 1 < current_page then
            some (include_query_params e.request_url (current_page - 1)
              per_page)
          else none
        last := some (include_query_params e.request_url total_pages
          per_page) } }

/-- The keyword parameters of `PaginationEngine.build_response` as declared
in `pagination.py` (besides `self`). -/
def build_response_kwparams : List String :=
  ["total_items", "data_page", "filters", "sorting"]

/-- The keyword arguments `FSPManager.generate_response` passes to
`build_response` in `fsp.py`. -/
def generate_response_build_call_kwargs : List String :=
  ["total_items", "data_page", "filters", "or_filters", "sorting"]

/-- Python call binding: a call with keyword arguments binds only when every
keyword names a declared parameter; otherwise the call raises `TypeError`
(unexpected keyword argument). -/
def py_call_accepts (params kwargs : List String) : Bool :=
  kwargs.all params.contains

/-! ## Configuration (`config.py`) -/

structure FSPConfig where
  max_per_page : Int := 100
  default_per_page : Int := 10
  default_page : Int := 1
  min_per_page : Int := 1
  strict_mode : Bool := false
  allow_deep_pagination : Bool := true
  max_page : Option Int := none
  deriving DecidableEq, Repr

/-- Embedding of `FSPConfig.__post_init__`: the conjunction of the checks a
constructed config must pass (a failing check raises `ValueError`). -/
def post_init_ok (c : FSPConfig) : Bool :=
  decide (1 ≤ c.max_per_page) && decide (1 ≤ c.default_per_page) &&
    decide (c.default_per_page ≤ c.max_per_page) &&
    decide (1 ≤ c.min_per_page) &&
    decide (c.min_per_page ≤ c.max_per_page) &&
    decide (1 ≤ c.default_page) &&
    (match c.max_page with
     | none => true
     | some m => decide (1 ≤ m))

/-- Embedding of `FSPConfig.validate_per_page(per_page)`. -/
def validate_per_page (c : FSPConfig) (per_page : Int) : Int :=
  if per_page < c.min_per_page then c.min_per_page
  else if per_page > c.max_per_page then c.max_per_page
  else per_page

/-- The condition a single filter contributes under the lenient policy: none
when its field is unresolved or its strategy yields no usable predicate,
otherwise the built predicate. -/
def lenient_condition (entityAttr : String → Option Column)
    (columnsMap : List (String × Column)) (g : Filter) : Option SqlPred :=
  match resolveField entityAttr columnsMap g.field with
  | none => none
  | some c =>
    match build_filter_condition c g c.pytype with
    | .ok (some p) => some p
    | _ => none

/-! ## Theorems -/

/-- Claim C2: `_coerce_value` is claimed never to raise and to return the
original string on any unparseable input, in particular for integer columns
on inputs such as `"inf"`. On an integer-typed column the string `"inf"`
fails `int(raw)`, parses under `float(raw)` as an infinity, and
`int(float(raw))` then raises `OverflowError`, which the surrounding
`except ValueError` does not catch: the exception escapes. The claim holds
for `"not_a_number"` and `"nan"` but fails for `"inf"` and `"-Infinity"`. -/
theorem coerce_value_int_inf_raises :
    coerce_value ⟨"age", some .pyInt, true⟩ "inf" none =
      .error .overflowError ∧
    coerce_value ⟨"age", some .pyInt, true⟩ "-Infinity" none =
      .error .overflowError ∧
    coerce_value ⟨"age", some .pyInt, true⟩ "not_a_number" none =
      .ok (.str "not_a_number") ∧
    coerce_value ⟨"age", some .pyInt, true⟩ "nan" none = .ok (.str "nan") := by
  decide

/-- Claim C10: `FSPConfig.validate_per_page` clamps any integer into
`[min_per_page, max_per_page]` without raising — values below the minimum go
up to it, values above the maximum go down to it, in-range values are
unchanged — and the function is idempotent. Holds for every configuration
accepted by `__post_init__`. -/
theorem validate_per_page_clamps (c : FSPConfig) (per_page : Int)
    (hvalid : post_init_ok c = true) :
    c.min_per_page ≤ validate_per_page c per_page ∧
    validate_per_page c per_page ≤ c.max_per_page ∧
    (per_page < c.min_per_page →
      validate_per_page c per_page = c.min_per_page) ∧
    (c.max_per_page < per_page →
      validate_per_page c per_page = c.max_per_page) ∧
    (c.min_per_page ≤ per_page → per_page ≤ c.max_per_page →
      validate_per_page c per_page = per_page) ∧
    validate_per_page c (validate_per_page c per_page) =
      validate_per_page c per_page := by
  simp only [post_init_ok, Bool.and_eq_true, decide_eq_true_eq] at hvalid
  obtain ⟨⟨⟨⟨⟨⟨hA, hB⟩, hC⟩, hD⟩, hE⟩, hF⟩, hG⟩ := hvalid
  refine ⟨?_, ?_, ?_, ?_, ?_, ?_⟩ <;>
    unfold validate_per_page <;> split_ifs <;> omega

/-- Claim C10 witness: the default configuration is valid and an over-limit
request of 300 items per page is clamped down to the maximum of 100. -/
theorem validate_per_page_clamps_witness :
    post_init_ok {} = true ∧ validate_per_page {} 300 = 100 :=
  ⟨by decide, (validate_per_page_clamps {} 300 (by decide)).2.2.2.1 (by decide)⟩

/-- Claim C9: `_detect_postgresql` is total and never raises — a session
with no bind and no sync session, a raising bind probe, a raising sync
session probe, or a raising dialect probe all yield `false` — and with the
override unset the auto-detection result drives
`_should_use_window_function`, so a `false` detection silently selects the
two-query fallback of `paginate_with_count`. -/
theorem detect_postgresql_total_fallback :
    ∀ (s : SessionInfo),
      (s.bind = .ok none → s.sync_session = .ok none →
        detect_postgresql s = false) ∧
      (∀ e, s.bind = .error e → detect_postgresql s = false) ∧
      (∀ e, s.bind = .ok none → s.sync_session = .error e →
        detect_postgresql s = false) ∧
      (∀ b e, s.bind = .ok (some b) → b.dialectName = .error e →
        detect_postgresql s = false) ∧
      (∀ (e : PaginationEngine), e.use_window_function = none →
        should_use_window_function e s = detect_postgresql s) ∧
      (∀ (e : PaginationEngine) (rows : List Nat),
        e.use_window_function = none → detect_postgresql s = false →
        paginate_with_count e s rows =
          (paginate e rows, count_total rows)) := by
  intro s
  refine ⟨?_, ?_, ?_, ?_, ?_, ?_⟩
  · intro h1 h2; simp [detect_postgresql, detect_postgresql_body, h1, h2]
  · intro e h1; simp [detect_postgresql, detect_postgresql_body, h1]
  · intro e h1 h2; simp [detect_postgresql, detect_postgresql_body, h1, h2]
  · intro b e h1 h2; simp [detect_postgresql, detect_postgresql_body, h1, h2]
  · intro e h1; simp [should_use_window_function, h1]
  · intro e rows h1 h2
    simp [paginate_with_count, should_use_window_function, h1, h2]

/-- Claim C9 witness: a session whose bind probe raises detects as
non-PostgreSQL, and pagination on it takes the two-query fallback. -/
theorem detect_postgresql_total_fallback_witness :
    detect_postgresql ⟨.error .valueError, .ok none⟩ = false ∧
    paginate_with_count ⟨⟨1, 10⟩, "u", none⟩ ⟨.error .valueError, .ok none⟩
        [1, 2, 3] =
      (paginate ⟨⟨1, 10⟩, "u", none⟩ [1, 2, 3], count_total [1, 2, 3]) :=
  ⟨(detect_postgresql_total_fallback ⟨.error .valueError, .ok none⟩).2.1
      .valueError rfl,
   (detect_postgresql_total_fallback ⟨.error .valueError, .ok none⟩).2.2.2.2.2
      ⟨⟨1, 10⟩, "u", none⟩ [1, 2, 3] rfl
      ((detect_postgresql_total_fallback ⟨.error .valueError, .ok none⟩).2.1
        .valueError rfl)⟩

/-- Claim C8: on a boolean-typed column `_coerce_value` always produces a
boolean and never passes the raw string through: recognized truthy/falsy
literals map to their value, every other string falls to Python truthiness,
so any non-empty unrecognized string (whitespace-only included) coerces to
`True` and only the empty string coerces to `False`. -/
theorem coerce_value_bool_never_passthrough :
    ∀ (column : Column) (raw : String) (pytypeArg : Option PyType),
      (pytypeArg.orElse fun _ => column.pytype) = some .pyBool →
      ((coerce_value column raw pytypeArg = .ok (.bool true) ∨
        coerce_value column raw pytypeArg = .ok (.bool false)) ∧
       (∀ s, coerce_value column raw pytypeArg ≠ .ok (.str s)) ∧
       (raw = "" → coerce_value column raw pytypeArg = .ok (.bool false)) ∧
       (pyLower (pyStrip raw) ∉ truthyStrings →
        pyLower (pyStrip raw) ∉ falsyStrings →
        coerce_value column raw pytypeArg =
          .ok (.bool (decide (raw ≠ ""))))) := by
  intro column raw pytypeArg h
  simp only [coerce_value, h]
  refine ⟨?_, ?_, ?_, ?_⟩
  · split_ifs with h1 h2
    · left; rfl
    · right; rfl
    · by_cases hr : raw = ""
      · right; simp [hr]
      · left; simp [hr]
  · intro s; split_ifs <;> simp
  · intro hraw; subst hraw; decide
  · intro ht hf; simp [ht, hf]

/-- Claim C8 witness: on a boolean column the whitespace-only string coerces
to `True` (it is in neither literal set and is non-empty). -/
theorem coerce_value_bool_never_passthrough_witness :
    coerce_value ⟨"active", some .pyBool, true⟩ " " none =
      .ok (.bool true) := by
  have h := (coerce_value_bool_never_passthrough ⟨"active", some .pyBool, true⟩
    " " none (by decide)).2.2.2 (by decide) (by decide)
  simpa using h

/-- Claim C5 counterexample: the claim says a two-element split containing
an empty element yields no predicate, but `_strategy_between` checks only
the element count — on `"20,"` the split is `["20", ""]`, has length 2 and
contains an empty element, yet a BETWEEN predicate is built rather than
`None`. -/
theorem strategy_between_empty_piece_counterexample :
    strategy_between ⟨"price", none, true⟩ "20," none =
      .ok (some (.betweenP (.colRef "price") (.str "20") (.str ""))) ∧
    strategy_between ⟨"price", none, true⟩ "20," none ≠ .ok none ∧
    (split_values "20,").length = 2 ∧
    (split_values "20,").contains "" = true := by
  decide

/-- Claim C5 (amended): `_strategy_between` returns `None` exactly when the
comma-split does not yield exactly two elements — emptiness of the elements
is not checked — and when the split has exactly two elements whose coercions
succeed it builds the inclusive range predicate over them. -/
theorem strategy_between_arity (column : Column) (raw : String)
    (pytype : Option PyType) :
    (strategy_between column raw pytype = .ok none ↔
      (split_values raw).length ≠ 2) ∧
    (∀ (h : (split_values raw).length = 2) (lo hi : PyValue),
      coerce_value column ((split_values raw).get ⟨0, by omega⟩) pytype =
        .ok lo →
      coerce_value column ((split_values raw).get ⟨1, by omega⟩) pytype =
        .ok hi →
      strategy_between column raw pytype =
        .ok (some (.betweenP (.colRef column.name) lo hi))) := by
  constructor
  · unfold strategy_between
    split
    case isTrue h =>
      simp only [h, ne_eq, not_true_eq_false, iff_false]
      cases h1 : coerce_value column ((split_values raw).get ⟨0, by omega⟩)
          pytype with
      | error e => simp
      | ok lo =>
        cases h2 : coerce_value column ((split_values raw).get ⟨1, by omega⟩)
            pytype with
        | error e => simp [h1, h2]
        | ok hi => simp [h1, h2]
    case isFalse h => simp [h]
  · intro h lo hi h1 h2
    unfold strategy_between
    split
    case isTrue h' => rw [h1, h2]
    case isFalse h' => exact absurd h h'

/-- Claim C5 witness: a single-element value yields no predicate — the
filter is dropped, not an error. -/
theorem strategy_between_arity_witness :
    strategy_between ⟨"age", none, true⟩ "20" none = .ok none :=
  (strategy_between_arity ⟨"age", none, true⟩ "20" none).1.mpr (by decide)

/-- Claim C4: the claim (and the repository's own tests) require the
case-insensitive pattern strategies to cast a non-text column to text, but
every such strategy in `filters.py` builds its predicate directly on the
column — `lower(column) LIKE` when the column lacks native ILIKE, a bare
`column ILIKE` otherwise — and no constructed predicate contains a cast
node. Evaluated on an integer column without native ILIKE, on an
enumerated-type column with it, and checked cast-free. -/
theorem string_strategies_never_cast :
    strategy_ilike ⟨"age", some .pyInt, false⟩ "%3%" (some .pyInt) =
      .ok (some (.likeP (.lowerFn (.colRef "age")) "%3%")) ∧
    strategy_contains ⟨"age", some .pyInt, false⟩ "3" (some .pyInt) =
      .ok (some (.likeP (.lowerFn (.colRef "age")) "%3%")) ∧
    strategy_starts_with ⟨"age", some .pyInt, false⟩ "3" (some .pyInt) =
      .ok (some (.likeP (.lowerFn (.colRef "age")) "3%")) ∧
    strategy_ends_with ⟨"age", some .pyInt, false⟩ "5" (some .pyInt) =
      .ok (some (.likeP (.lowerFn (.colRef "age")) "%5")) ∧
    strategy_not_ilike ⟨"age", some .pyInt, false⟩ "%3%" (some .pyInt) =
      .ok (some (.notP (.likeP (.lowerFn (.colRef "age")) "%3%"))) ∧
    SqlPred.hasCastText (.likeP (.lowerFn (.colRef "age")) "%3%") = false ∧
    SqlPred.hasCastText (.notP (.likeP (.lowerFn (.colRef "age")) "%3%")) =
      false ∧
    strategy_contains ⟨"status", some .pyOther, true⟩ "act" (some .pyOther) =
      .ok (some (.ilikeP (.colRef "status") "%act%")) ∧
    SqlPred.hasCastText (.ilikeP (.colRef "status") "%act%") = false := by
  decide

/-- Claim C3: `build_response` as declared in `pagination.py` neither
accepts nor echoes OR-groups — its `Meta` always carries `or_filters =
None`, and the keyword set `generate_response` passes it includes
`or_filters`, which its parameter list lacks, so the call raises
`TypeError` in Python. -/
theorem build_response_drops_or_filters :
    ∀ (e : PaginationEngine) (total_items : Option Nat)
      (data_page : List Nat) (filters : Option (List Filter))
      (sorting : Option SortingQuery),
      (build_response e total_items data_page filters
          sorting).meta.or_filters = none ∧
      py_call_accepts build_response_kwparams
        generate_response_build_call_kwargs = false := by
  intro e total_items data_page filters sorting
  exact ⟨rfl, by decide⟩

/-- Claim C7: `build_response` computes
`total_pages = max(1, ceil(total_items / per_page))` — characterised as a
genuine ceiling by its Galois property — so `total_pages` is 1 when
`total_items` is 0 and never 0; a next link is present exactly when the
current page is below `total_pages`, and a prev link exactly when the
current page exceeds 1. -/
theorem build_response_pages_and_links :
    ∀ (e : PaginationEngine) (total_items : Nat) (data_page : List Nat)
      (filters : Option (List Filter)) (sorting : Option SortingQuery),
      1 ≤ e.pagination.page → 1 ≤ e.pagination.per_page →
      ((build_response e (some total_items) data_page filters
          sorting).meta.pagination.total_pages =
        some (max 1 (total_items ⌈/⌉ e.pagination.per_page)) ∧
       (∀ m : Nat, total_items ⌈/⌉ e.pagination.per_page ≤ m ↔
         total_items ≤ e.pagination.per_page * m) ∧
       (total_items = 0 →
         (build_response e (some total_items) data_page filters
           sorting).meta.pagination.total_pages = some 1) ∧
       (∀ tp, (build_response e (some total_items) data_page filters
           sorting).meta.pagination.total_pages = some tp → 1 ≤ tp) ∧
       ((build_response e (some total_items) data_page filters
           sorting).links.next ≠ none ↔
         e.pagination.page < max 1 (total_items ⌈/⌉ e.pagination.per_page)) ∧
       ((build_response e (some total_items) data_page filters
           sorting).links.prev ≠ none ↔ 1 < e.pagination.page)) := by
  intro e total_items data_page filters sorting hpage hper
  refine ⟨rfl, ?_, ?_, ?_, ?_, ?_⟩
  · intro m
    exact ceilDiv_le_iff_le_mul (by omega)
  · intro h0; subst h0; simp [build_response, pyCeilDiv]
  · intro tp htp
    simp only [build_response, Option.some.injEq] at htp
    omega
  · simp only [build_response, pyCeilDiv]
    split_ifs with h <;> simp [h]
  · simp only [build_response, pyCeilDiv]
    split_ifs with h <;> simp [h]

/-- Claim C7 witness: an empty result set on page 1 with 10 per page yields
`total_pages = 1`. -/
theorem build_response_pages_and_links_witness :
    (build_response ⟨⟨1, 10⟩, "u", none⟩ (some 0) ([] : List Nat) none
        none).meta.pagination.total_pages = some 1 :=
  (build_response_pages_and_links ⟨⟨1, 10⟩, "u", none⟩ 0 [] none none
    (by decide) (by decide)).2.2.1 rfl

/-- Claim C1 counterexample: on a one-row result set with `page = 2`,
`per_page = 1` the windowed path returns `([], 0)` while the two-query
fallback returns `([], 1)` — the totals disagree on a page past the last
one, and forcing `paginate_with_count` onto each path exhibits the
difference. -/
theorem paginate_with_count_past_end_counterexample :
    paginate_with_window ⟨⟨2, 1⟩, "u", none⟩ [(0 : Nat)] = ([], 0) ∧
    (paginate ⟨⟨2, 1⟩, "u", none⟩ [(0 : Nat)],
      count_total [(0 : Nat)]) = ([], 1) ∧
    paginate_with_window ⟨⟨2, 1⟩, "u", none⟩ [(0 : Nat)] ≠
      (paginate ⟨⟨2, 1⟩, "u", none⟩ [(0 : Nat)], count_total [(0 : Nat)]) ∧
    paginate_with_count ⟨⟨2, 1⟩, "u", some true⟩ ⟨.ok none, .ok none⟩
        [(0 : Nat)] ≠
      paginate_with_count ⟨⟨2, 1⟩, "u", some false⟩ ⟨.ok none, .ok none⟩
        [(0 : Nat)] := by
  decide

/-- Claim C1 (amended): the windowed and fallback paths always return the
same rows, and return identical `(rows, total)` pairs whenever the
requested window overlaps the result set or the result set is empty; but
when a non-empty result set is paged past its end, the windowed path
reports total 0 while the fallback reports the true count.
`paginate_with_count` dispatches between exactly these two paths. -/
theorem paginate_with_count_window_equiv :
    ∀ (α : Type) (e : PaginationEngine) (s : SessionInfo) (rows : List α),
      1 ≤ e.pagination.per_page →
      ((paginate_with_window e rows).1 = paginate e rows ∧
       ((e.pagination.page - 1) * e.pagination.per_page < rows.length ∨
           rows.length = 0 →
         paginate_with_window e rows = (paginate e rows, count_total rows)) ∧
       (rows.length ≠ 0 →
         rows.length ≤ (e.pagination.page - 1) * e.pagination.per_page →
         paginate_with_window e rows = ([], 0) ∧
         (paginate e rows, count_total rows) = ([], rows.length)) ∧
       paginate_with_count e s rows =
         (if should_use_window_function e s then paginate_with_window e rows
          else (paginate e rows, count_total rows))) := by
  intro α e s rows hper
  have hw :
      ((rows.map (fun r => (r, rows.length))).drop
          ((e.pagination.page - 1) * e.pagination.per_page)).take
        e.pagination.per_page =
      (paginate e rows).map (fun r => (r, rows.length)) := by
    rw [paginate, List.map_take, List.map_drop]
  have hfst : ∀ (l : List α),
      (l.map (fun r => (r, rows.length))).map Prod.fst = l := by
    intro l
    induction l with
    | nil => rfl
    | cons a t ih =>
      simp only [List.map_cons, List.cons.injEq]
      exact ⟨trivial, ih⟩
  refine ⟨?_, ?_, ?_, rfl⟩
  · rw [paginate_with_window, hw]
    cases hp : paginate e rows with
    | nil => rfl
    | cons a l =>
      show ((a, rows.length) ::
          l.map (fun r => (r, rows.length))).map Prod.fst = a :: l
      simp only [List.map_cons]
      rw [hfst l]
  · intro hcase
    rw [paginate_with_window, hw]
    cases hp : paginate e rows with
    | nil =>
      rcases hcase with hlt | hzero
      · exfalso
        have hlen : (paginate e rows).length =
            min e.pagination.per_page
              (rows.length -
                (e.pagination.page - 1) * e.pagination.per_page) := by
          rw [paginate, List.length_take, List.length_drop]
        rw [hp] at hlen
        simp at hlen
        omega
      · have : rows = [] := List.length_eq_zero.mp hzero
        subst this
        simp [count_total]
    | cons a l =>
      show (((a, rows.length) ::
            l.map (fun r => (r, rows.length))).map Prod.fst,
          rows.length) = (a :: l, count_total rows)
      simp only [List.map_cons]
      rw [hfst l]
      rfl
  · intro hne hpast
    have hdrop : rows.drop ((e.pagination.page - 1) * e.pagination.per_page) =
        [] := List.drop_eq_nil_iff.mpr hpast
    have hp : paginate e rows = [] := by
      rw [paginate, hdrop, List.take_nil]
    constructor
    · rw [paginate_with_window, hw, hp]; rfl
    · rw [hp, count_total]

/-- Claim C1 witness: on a three-row result set, page 1 with 2 per page, the
windowed path agrees exactly with the fallback pair. -/
theorem paginate_with_count_window_equiv_witness :
    paginate_with_window ⟨⟨1, 2⟩, "u", none⟩ [10, 20, 30] =
      (paginate ⟨⟨1, 2⟩, "u", none⟩ [10, 20, 30],
        count_total [10, 20, 30]) :=
  (paginate_with_count_window_equiv Nat ⟨⟨1, 2⟩, "u", none⟩
    ⟨.ok none, .ok none⟩ [10, 20, 30] (by decide)).2.1 (Or.inl (by decide))

/-- Strict mode raises at the first filter whose field is unresolved, with a
400 detail naming the field and the sorted stored-column names. -/
theorem collect_strict_first_unresolved
    (entityAttr : String → Option Column)
    (columnsMap : List (String × Column)) :
    ∀ (fs : List Filter) (f : Filter),
      fs.find? (fun g => (resolveField entityAttr columnsMap g.field).isNone) =
        some f →
      (∀ g ∈ fs, ∀ c, resolveField entityAttr columnsMap g.field = some c →
        ∀ e, build_filter_condition c g c.pytype ≠ .error e) →
      collect_filter_conditions true entityAttr columnsMap fs =
        .error (.http ⟨400, unknown_field_detail f.field columnsMap⟩) := by
  intro fs
  induction fs with
  | nil => intro f hf; simp [List.find?] at hf
  | cons g rest ih =>
    intro f hf hsafe
    cases hr : resolveField entityAttr columnsMap g.field with
    | none =>
      have : f = g := by
        rw [List.find?] at hf
        simp [hr] at hf
        exact hf.symm
      subst this
      simp [collect_filter_conditions, hr]
    | some c =>
      have hfind : rest.find?
          (fun g => (resolveField entityAttr columnsMap g.field).isNone) =
            some f := by
        rw [List.find?] at hf
        simpa [hr] using hf
      have hrest := ih f hfind
        (fun g' hg' => hsafe g' (List.mem_cons_of_mem _ hg'))
      cases hb : build_filter_condition c g c.pytype with
      | error e => exact absurd hb (hsafe g (List.mem_cons_self g rest) c hr e)
      | ok cond =>
        cases cond with
        | none => simpa [collect_filter_conditions, hr, hb] using hrest
        | some p =>
          simp [collect_filter_conditions, hr, hb, hrest, Except.map]

/-- Lenient mode collects exactly the conditions of the resolvable filters,
skipping unresolved ones. -/
theorem collect_lenient_skips
    (entityAttr : String → Option Column)
    (columnsMap : List (String × Column)) :
    ∀ (fs : List Filter),
      (∀ g ∈ fs, ∀ c, resolveField entityAttr columnsMap g.field = some c →
        ∀ e, build_filter_condition c g c.pytype ≠ .error e) →
      collect_filter_conditions false entityAttr columnsMap fs =
        .ok (fs.filterMap (lenient_condition entityAttr columnsMap)) := by
  intro fs
  induction fs with
  | nil => intro _; rfl
  | cons g rest ih =>
    intro hsafe
    have hrest := ih (fun g' hg' => hsafe g' (List.mem_cons_of_mem _ hg'))
    cases hr : resolveField entityAttr columnsMap g.field with
    | none =>
      simp [collect_filter_conditions, List.filterMap, lenient_condition, hr,
        hrest]
    | some c =>
      cases hb : build_filter_condition c g c.pytype with
      | error e => exact absurd hb (hsafe g (List.mem_cons_self g rest) c hr e)
      | ok cond =>
        cases cond with
        | none =>
          simp [collect_filter_conditions, List.filterMap, lenient_condition,
            hr, hb, hrest]
        | some p =>
          simp [collect_filter_conditions, List.filterMap, lenient_condition,
            hr, hb, hrest, Except.map]

/-- Claim C6: for filters/sort keys whose field resolves to neither a stored
column nor an entity attribute — in strict mode `apply_filters` errors at
the first such filter and `apply_sort` errors on such a sort key, each with
a 400 status and a detail naming the field and listing the stored-column
names in sorted order; in lenient mode only the offending filter or sort
key is skipped — the query keeps exactly the conditions of the remaining
(resolvable) filters — and when every filter is unknown the query is
returned unchanged (the full unfiltered dataset). -/
theorem apply_unknown_field_policy :
    ∀ (entityAttr : String → Option Column) (query : SqlQuery)
      (columnsMap : List (String × Column)) (filters : List Filter)
      (sort_by : String) (ord : SortingOrder),
      (∀ g ∈ filters, ∀ c,
        resolveField entityAttr columnsMap g.field = some c →
        ∀ e, build_filter_condition c g c.pytype ≠ .error e) →
      ((∀ f, filters.find?
            (fun g => (resolveField entityAttr columnsMap g.field).isNone) =
              some f →
          apply_filters true entityAttr query columnsMap filters =
            .error (.http ⟨400, unknown_field_detail f.field columnsMap⟩)) ∧
       apply_filters false entityAttr query columnsMap filters =
         .ok (if (filters.filterMap
             (lenient_condition entityAttr columnsMap)).isEmpty then query
           else { query with whereGroups := query.whereGroups ++
             [filters.filterMap (lenient_condition entityAttr columnsMap)] }) ∧
       ((∀ g ∈ filters, resolveField entityAttr columnsMap g.field = none) →
         apply_filters false entityAttr query columnsMap filters =
           .ok query) ∧
       (sort_by ≠ "" → resolveField entityAttr columnsMap sort_by = none →
         apply_sort true entityAttr query columnsMap (some ⟨sort_by, ord⟩) =
           .error
             (.http ⟨400, unknown_sort_field_detail sort_by columnsMap⟩) ∧
         apply_sort false entityAttr query columnsMap (some ⟨sort_by, ord⟩) =
           .ok query)) := by
  intro entityAttr query columnsMap filters sort_by ord hsafe
  refine ⟨?_, ?_, ?_, ?_⟩
  · intro f hfind
    cases filters with
    | nil => simp [List.find?] at hfind
    | cons g rest =>
      have hc := collect_strict_first_unresolved entityAttr columnsMap
        (g :: rest) f hfind hsafe
      simp [apply_filters, hc]
  · cases filters with
    | nil => rfl
    | cons g rest =>
      have hc := collect_lenient_skips entityAttr columnsMap (g :: rest) hsafe
      simp [apply_filters, hc]
  · intro hall
    cases filters with
    | nil => rfl
    | cons g rest =>
      have hc := collect_lenient_skips entityAttr columnsMap (g :: rest) hsafe
      have hnil : (g :: rest).filterMap
          (lenient_condition entityAttr columnsMap) = [] := by
        rw [List.filterMap_eq_nil_iff]
        intro a ha
        simp [lenient_condition, hall a ha]
      rw [hnil] at hc
      simp [apply_filters, hc]
  · intro hsb hres
    constructor <;> simp [apply_sort, hsb, hres]

/-- Claim C6 witness: with one stored column `age`, a filter and a sort on
unknown fields error with the expected 400 details in strict mode, and
lenient mode passes the query through untouched; the detail string is
spelled out. -/
theorem apply_unknown_field_policy_witness :
    apply_filters true (fun _ => none) {}
        [("age", ⟨"age", some .pyInt, true⟩)] [⟨"unknown", .eq, "1"⟩] =
      .error (.http ⟨400, unknown_field_detail "unknown"
        [("age", ⟨"age", some .pyInt, true⟩)]⟩) ∧
    apply_filters false (fun _ => none) {}
        [("age", ⟨"age", some .pyInt, true⟩)] [⟨"unknown", .eq, "1"⟩] =
      .ok {} ∧
    apply_sort true (fun _ => none) {}
        [("age", ⟨"age", some .pyInt, true⟩)] (some ⟨"bogus", .asc⟩) =
      .error (.http ⟨400, unknown_sort_field_detail "bogus"
        [("age", ⟨"age", some .pyInt, true⟩)]⟩) ∧
    unknown_field_detail "unknown" [("age", ⟨"age", some .pyInt, true⟩)] =
      "Unknown field \x27unknown\x27. Available fields: age" := by
  have hsafe : ∀ g ∈ [(⟨"unknown", .eq, "1"⟩ : Filter)], ∀ c,
      resolveField (fun _ => none)
        [("age", (⟨"age", some .pyInt, true⟩ : Column))] g.field = some c →
      ∀ e, build_filter_condition c g c.pytype ≠ .error e := by
    intro g hg c hc e
    rw [List.mem_singleton] at hg
    subst hg
    rw [show resolveField (fun _ => (none : Option Column))
      [("age", (⟨"age", some .pyInt, true⟩ : Column))] "unknown" = none from
      by decide] at hc
    exact Option.noConfusion hc
  have h := apply_unknown_field_policy (fun _ => none) {}
    [("age", ⟨"age", some .pyInt, true⟩)] [⟨"unknown", .eq, "1"⟩]
    "bogus" .asc hsafe
  refine ⟨h.1 ⟨"unknown", .eq, "1"⟩ (by decide), ?_, ?_, by decide⟩
  · have hall : ∀ g ∈ [(⟨"unknown", .eq, "1"⟩ : Filter)],
        resolveField (fun _ => none)
          [("age", (⟨"age", some .pyInt, true⟩ : Column))] g.field = none := by
      intro g hg
      rw [List.mem_singleton] at hg
      subst hg
      decide
    exact h.2.2.1 hall
  · exact (h.2.2.2 (by decide) (by decide)).1

end FastapiFsp
